import Mathlib

/-!
Verification development for the Tracker-Desktop fish-tracking pipeline
(`backend_python/tracking/`).  The Python sources are shallowly embedded:

* `tracker.py` — the `FishTracker` occlusion-tolerant state machine
  (`process_frame`, `run`, `save_results`).
* `distance_calculator.py` — `calculate_total_distance` and
  `calculate_summary`.
* `tracker_wrapper.py` — `process_video` (per-video pipeline with a
  top-level exception boundary).
* `No_GUI.py` — `run_tracking` (batched orchestrator and run log).

External collaborators (OpenCV segmentation, contour extraction, file
I/O, wall-clock time) are modelled as inputs: a frame is represented by
the detector outcome it induces (its list of candidate contours), a video
resource by whether it opens, the frames it yields and its reported
dimensions, and raised exceptions by `Except` values.
-/

/-! ## Tracker state machine (`tracker.py`) -/

/-- A bounding box as returned by `cv2.boundingRect`: (x, y, w, h),
all non-negative integers. -/
structure BBox where
  x : ℕ
  y : ℕ
  w : ℕ
  h : ℕ
deriving DecidableEq, Repr

/-- A candidate region as produced by the external contour collaborator:
`cv2.contourArea` (a float, modelled as `ℚ`) together with its
`cv2.boundingRect`. -/
structure Contour where
  area : ℚ
  rect : BBox
deriving DecidableEq, Repr

/-- Centroid of a bounding box, `cx, cy = x + w // 2, y + h // 2`
(`tracker.py` line 62 and line 71; Nat division matches Python `//` on
non-negative operands). -/
def bboxCentroid (b : BBox) : ℕ × ℕ :=
  (b.x + b.w / 2, b.y + b.h / 2)

/-- The contour-selection loop of `FishTracker.process_frame`
(lines 58–67): iterate candidates in order, skip any with
`cv2.contourArea(cnt) < 500`, and take the first remaining one
(the loop body ends in `break`). -/
def detectFirst : List Contour → Option BBox
  | [] => none
  | c :: cs => if c.area < 500 then detectFirst cs else some c.rect

/-- The mutable per-video state of `FishTracker`: `last_bbox`,
`no_movement_frames`, `max_no_movement_frames`, and the logged trail
(`positions`; the parallel `centroid_data` list additionally carries a
wall-clock timestamp, an external input not modelled). -/
structure TrackerState where
  last_bbox : Option BBox
  no_movement_frames : ℕ
  max_no_movement_frames : ℕ
  positions : List (ℕ × ℕ)
deriving DecidableEq, Repr

/-- The state set up by `FishTracker.__init__`: no `last_bbox`, streak 0,
`max_no_movement_frames = 10`, empty trail. -/
def initState : TrackerState :=
  { last_bbox := none
    no_movement_frames := 0
    max_no_movement_frames := 10
    positions := [] }

/-- One step of `FishTracker.process_frame` (lines 48–78), as a function
of the frame's contour list.  On a first qualifying contour: log its
centroid, set `last_bbox`, and (via the trailing `elif detected`) reset
the streak.  Otherwise, if `last_bbox` is set and
`no_movement_frames <= max_no_movement_frames`, log the held centroid and
increment the streak; otherwise the state is unchanged. -/
def process_frame (s : TrackerState) (contours : List Contour) : TrackerState :=
  match detectFirst contours with
  | some b =>
      { s with
        positions := s.positions ++ [bboxCentroid b]
        last_bbox := some b
        no_movement_frames := 0 }
  | none =>
      match s.last_bbox with
      | some b =>
          if s.no_movement_frames ≤ s.max_no_movement_frames then
            { s with
              positions := s.positions ++ [bboxCentroid b]
              no_movement_frames := s.no_movement_frames + 1 }
          else s
      | none => s

/-- The frame loop of `FishTracker.run`: fold `process_frame` over the
video's frame sequence in order. -/
def runFrames (s : TrackerState) (fs : List (List Contour)) : TrackerState :=
  fs.foldl process_frame s

/-! ## Distance calculator (`distance_calculator.py`) -/

/-- One `csv.DictReader` row of a trajectory table, reduced to the two
fields `calculate_total_distance` reads.  A component is `some n` when
the column is present and `int(...)` parses it to `n`; it is `none` when
the lookup raises `KeyError` or the conversion raises `ValueError`. -/
structure Row where
  centroid_x : Option ℤ
  centroid_y : Option ℤ
deriving DecidableEq, Repr

/-- The row-parsing `try` block of `calculate_total_distance`
(lines 43–48): both centroid fields must be present and numeric,
otherwise the row is skipped. -/
def parseRow (r : Row) : Option (ℤ × ℤ) :=
  match r.centroid_x, r.centroid_y with
  | some x, some y => some (x, y)
  | _, _ => none

/-- The point-collection loop of `calculate_total_distance`
(lines 40–49): enumerate rows from index 0, `continue` unless
`idx % frame_skip == 0`, then append the parsed centroid, skipping
rows that fail to parse. -/
def pointsLoop (frame_skip : ℕ) : ℕ → List Row → List (ℤ × ℤ)
  | _, [] => []
  | idx, r :: rs =>
      if idx % frame_skip ≠ 0 then pointsLoop frame_skip (idx + 1) rs
      else
        match parseRow r with
        | some p => p :: pointsLoop frame_skip (idx + 1) rs
        | none => pointsLoop frame_skip (idx + 1) rs

/-- The `points` list built by `calculate_total_distance` from the CSV
rows (the loop starting at index 0). -/
def collectPoints (frame_skip : ℕ) (rows : List Row) : List (ℤ × ℤ) :=
  pointsLoop frame_skip 0 rows

/-- The video resource as seen by `calculate_total_distance`: whether
`cv2.VideoCapture` opens it, and its reported integer frame dimensions. -/
structure VideoMeta where
  openable : Bool
  frame_width : ℕ
  frame_height : ℕ
deriving DecidableEq, Repr

/-- The pixel-distance sum of `calculate_total_distance` (lines 58–61):
`sum(sqrt((x_i - x_(i-1))^2 + (y_i - y_(i-1))^2) for i in 1..len-1)`,
with Python floats idealised as exact reals. -/
noncomputable def totalPixelDistance : List (ℤ × ℤ) → ℝ
  | [] => 0
  | [_] => 0
  | p :: q :: rest =>
      Real.sqrt (((q.1 - p.1 : ℤ) : ℝ) ^ 2 + ((q.2 - p.2 : ℤ) : ℝ) ^ 2)
        + totalPixelDistance (q :: rest)

/-- `calculate_total_distance(csv_path, video_path, real_width_cm,
real_height_cm, frame_skip)` (lines 7–67).  The CSV file is represented
by `csv_ok` (whether opening/reading it succeeds, lines 50–52) together
with its parsed rows; the video by a `VideoMeta`.  Returns `none` for the
two `None`-returning failure paths, `some 0` when fewer than 2 points
survive, and otherwise the scaled pixel distance. -/
noncomputable def calculate_total_distance
    (csv_ok : Bool) (rows : List Row) (video : VideoMeta)
    (real_width_cm real_height_cm : ℝ) (frame_skip : ℕ) : Option ℝ :=
  if video.openable = false then none
  else if csv_ok = false then none
  else
    let points := collectPoints frame_skip rows
    if points.length < 2 then some 0
    else
      let pixel_to_cm_x := real_width_cm / (video.frame_width : ℝ)
      let pixel_to_cm_y := real_height_cm / (video.frame_height : ℝ)
      some (totalPixelDistance points * ((pixel_to_cm_x + pixel_to_cm_y) / 2))

/-! Spec-side definitions for the distance claims (C5, C6).  These follow
the spec's words and are compared with the source-derived definitions
above. -/

/-- Spec-side downsampling: "keeping only every Nth row", i.e. exactly
the rows whose 0-based index is a multiple of `frame_skip`. -/
def specSampled (frame_skip : ℕ) (rows : List Row) : List Row :=
  ((rows.enum.filter (fun p => p.1 % frame_skip == 0)).map Prod.snd)

/-- An integer pixel position as a point of the Euclidean plane
`EuclideanSpace ℝ (Fin 2)`. -/
noncomputable def toE2 (p : ℤ × ℤ) : EuclideanSpace ℝ (Fin 2) :=
  (WithLp.equiv 2 (Fin 2 → ℝ)).symm ![(p.1 : ℝ), (p.2 : ℝ)]

/-- Spec-side "standard 2-D distance" between two integer points, via the
Euclidean metric on `EuclideanSpace ℝ (Fin 2)`. -/
noncomputable def euclidDist2D (p q : ℤ × ℤ) : ℝ :=
  dist (toE2 p) (toE2 q)

/-- Spec-side path length: the sum of Euclidean distances between
consecutive kept points. -/
noncomputable def specPathLength (pts : List (ℤ × ℤ)) : ℝ :=
  ((pts.zip pts.tail).map (fun pq => euclidDist2D pq.1 pq.2)).sum

/-- Spec-side distance in centimeters: the path length over the kept
(downsampled, valid) points, multiplied by the average of the two
per-axis scale factors `real_width_cm / frame_width` and
`real_height_cm / frame_height`. -/
noncomputable def specDistanceCm
    (rows : List Row) (video : VideoMeta)
    (real_width_cm real_height_cm : ℝ) (frame_skip : ℕ) : ℝ :=
  specPathLength (collectPoints frame_skip rows)
    * ((real_width_cm / (video.frame_width : ℝ)
        + real_height_cm / (video.frame_height : ℝ)) / 2)

/-! ## Per-video pipeline (`tracker_wrapper.py`, `tracker.py` run/save) -/

/-- A raster frame; only its dimensions are observable to the modelled
code (`save_results` sizes the heatmap from `valid_frame.shape`). -/
structure Frame where
  width : ℕ
  height : ℕ
deriving DecidableEq, Repr

/-- A video resource as consumed by `FishTracker`: whether
`cv2.VideoCapture` opens it, the frames its `read()` yields before
returning `ret = False`, and any exception the external decode/write
layers raise during the job (`none` when the job's I/O all succeeds). -/
structure VideoInput where
  openable : Bool
  frames : List Frame
  io_fault : Option String
deriving DecidableEq, Repr

/-- The `valid_frame` field after `FishTracker.run` (lines 80–95): the
last successfully read frame, or `None` when the capture never opened or
no frame was ever read. -/
def run_valid_frame (v : VideoInput) : Option Frame :=
  if v.openable then v.frames.getLast? else none

/-- Outcome of `FishTracker.save_results` (lines 97–123): with no valid
frame it prints "No valid frame captured." and returns normally without
writing (`skipped`); otherwise it writes the CSV and heatmap
(`written`).  Neither path raises. -/
inductive SaveOutcome where
  | skipped
  | written
deriving DecidableEq, Repr

/-- `FishTracker.save_results` as a function of `valid_frame`. -/
def save_results (valid_frame : Option Frame) : SaveOutcome :=
  match valid_frame with
  | none => SaveOutcome.skipped
  | some _ => SaveOutcome.written

/-- The body of `process_video`'s `try` block (`tracker_wrapper.py`
lines 14–22): construct the tracker, run it, save results.  An exception
raised by the external layers propagates as `Except.error`; otherwise the
pipeline finishes with the save outcome.  An unopenable or frameless
video raises nothing: `run` just reads zero frames and `save_results`
returns normally after skipping. -/
def tracker_pipeline (v : VideoInput) : Except String SaveOutcome :=
  match v.io_fault with
  | some e => Except.error e
  | none => Except.ok (save_results (run_valid_frame v))

/-- `process_video(video_path, output_dir)` (`tracker_wrapper.py`
lines 13–24): run the pipeline under a top-level `try/except Exception`
and return a string in both branches.  `name` models
`os.path.basename(video_path)`. -/
def process_video (v : VideoInput) (name : String) : String :=
  match tracker_pipeline v with
  | Except.ok _ => "✅ Success: " ++ name
  | Except.error e => "❌ Failed: " ++ name ++ " with error: " ++ e

/-! ## Batch orchestrator (`No_GUI.py`) -/

/-- `BATCH_SIZE = 10` (`No_GUI.py` line 8). -/
def BATCH_SIZE : ℕ := 10

/-- One batch job: a video (identified by its basename) and its input. -/
structure Job where
  name : String
  input : VideoInput
deriving DecidableEq, Repr

/-- The result delivered by `future.result()` for a submitted job.
`process_video` catches every exception and returns a string, so the
callable handed to the executor never raises and `future.result()`
always returns normally. -/
def futureResult (v : VideoInput) (name : String) : Except String String :=
  Except.ok (process_video v name)

/-- The per-job `try/except` around `future.result()` in `run_tracking`
(`No_GUI.py` lines 49–53): a normal result yields a completion line, a
raised exception would yield an error line. -/
def jobLine (name : String) (res : Except String String) : String :=
  match res with
  | Except.ok r => "✅ Completed " ++ name ++ ": " ++ r
  | Except.error e => "❌ Error with " ++ name ++ ": " ++ e

/-- The log line `run_tracking` emits when a job finishes. -/
def jobCompletionLine (j : Job) : String :=
  jobLine j.name (futureResult j.input j.name)

/-- The batch slicing of `run_tracking` (line 37–38):
`video_files[batch_start:batch_start + BATCH_SIZE]` for
`batch_start in range(0, total, BATCH_SIZE)`.  Written so each step
consumes at least one element; for any `bs ≥ 1` the head batch is
`l.take bs` and the rest continues from `l.drop bs`, matching Python. -/
def batches (bs : ℕ) : List α → List (List α)
  | [] => []
  | x :: xs => (x :: xs.take (bs - 1)) :: batches bs (xs.drop (bs - 1))
termination_by l => l.length
decreasing_by
  simp only [List.length_cons, List.length_drop]
  omega

/-- The log lines produced for one batch (`No_GUI.py` lines 41–58): a
batch-start line, one completion line per job, and a batch-finish line.
In the source the per-job lines appear in `as_completed` order, a
nondeterministically chosen permutation of the batch; the model fixes
submission order (none of the verified properties depend on the order
within a batch). -/
def batchLog (batch : List Job) : List String :=
  ("▶️ Starting batch: " ++ String.intercalate ", " (batch.map Job.name))
    :: batch.map jobCompletionLine
    ++ ["✔️ Finished batch: " ++ String.intercalate ", " (batch.map Job.name)]

/-- The full run-log body written by `run_tracking`: batches processed
strictly in order, each contributing its `batchLog` lines. -/
def runTrackingLog (jobs : List Job) : List String :=
  (batches BATCH_SIZE jobs).flatMap batchLog

/-! ## Distance summary (`distance_calculator.py`, `calculate_summary`) -/

/-- Model of Python's `str.lower` on the ASCII range (filenames in this
pipeline are ASCII; `str.lower` is standard-library code external to the
repository). -/
def asciiLowerChar (c : Char) : Char :=
  if 65 ≤ c.toNat ∧ c.toNat ≤ 90 then Char.ofNat (c.toNat + 32) else c

/-- Model of Python's `str.lower` over a whole string. -/
def strLower (s : String) : String :=
  String.mk (s.data.map asciiLowerChar)

/-- Model of Python's `str.endswith`: the final characters of `s` equal
`suffix`. -/
def strEndsWith (s suffix : String) : Bool :=
  s.data.drop (s.data.length - suffix.data.length) == suffix.data

/-- Model of the name part of `os.path.splitext`: the filename up to its
last dot, or the whole name when it contains none.  (The `splitext`
special case for dotfiles is not modelled; no tracked filename has that
shape.) -/
def fileStem (s : String) : String :=
  if '.' ∈ s.data then String.mk ((s.data.reverse.dropWhile (· ≠ '.')).drop 1).reverse
  else s

/-- The extension filter of `run_tracking` (`No_GUI.py` line 21):
`f.lower().endswith((".mp4", ".avi", ".mov"))`. -/
def isVideoFile (f : String) : Bool :=
  strEndsWith (strLower f) ".mp4" || strEndsWith (strLower f) ".avi"
    || strEndsWith (strLower f) ".mov"

/-- The CSV filter of `calculate_summary` (line 92):
`f.lower().endswith('.csv')`. -/
def isCsvFile (f : String) : Bool :=
  strEndsWith (strLower f) ".csv"

/-- The per-CSV loop of `calculate_summary` (lines 97–111) over the
listings of the data and videos directories.  For each trajectory CSV the
paired video is the file literally named `<stem>.mp4` in the videos
directory; when that file is absent the entry is skipped, otherwise a row
`(stem, formatted distance or "Error")` is appended.  `dist` abstracts
`calculate_total_distance` plus the `f"{distance:.2f}"` formatting, whose
inputs (file contents) are external here. -/
def summaryRows (videos_dir data_files : List String)
    (dist : String → Option String) : List (String × String) :=
  (data_files.filter (fun f => isCsvFile f)).filterMap (fun csv_file =>
    let name := fileStem csv_file
    if (name ++ ".mp4") ∈ videos_dir then
      some (name, match dist name with
                  | some d => d
                  | none => "Error")
    else none)

/-! ## Concrete inputs used by counterexamples and witnesses -/

/-- C1 counterexample input: one frame with a qualifying region (area
600 ≥ 500) followed by 12 frames with no qualifying region. -/
def c1Frames : List (List Contour) :=
  ([⟨600, ⟨10, 10, 20, 20⟩⟩] : List Contour) :: List.replicate 12 []

/-- A tracker state just after a genuine detection, used as the witness
input for the amended C1. -/
def c1wState : TrackerState :=
  { last_bbox := some ⟨1, 1, 2, 2⟩
    no_movement_frames := 0
    max_no_movement_frames := 10
    positions := [(2, 2)] }

/-- C3 witness: first detection frame. -/
def c3wDet1 : List Contour := [⟨600, ⟨4, 4, 10, 6⟩⟩]

/-- C3 witness: two occluded frames. -/
def c3wF : List (List Contour) := [[], []]

/-- C3 witness: second detection frame. -/
def c3wDet2 : List Contour := [⟨800, ⟨8, 2, 4, 4⟩⟩]

/-- C8 witness: a two-job batch whose second job's external I/O raises. -/
def c8wJobs : List Job :=
  [⟨"a.mp4", ⟨true, [⟨640, 480⟩], none⟩⟩,
   ⟨"b.mp4", ⟨true, [], some "boom"⟩⟩]

/-! ## Theorems -/

/-- Running the tracker over frames that all fail to detect, from a state
holding a last bounding box, appends the held centroid once per frame
until the streak passes `max_no_movement_frames`; in total
`min K (max + 1 - streak)` synthetic trail points for `K` frames. -/
theorem runFrames_no_detect_positions (F : List (List Contour))
    (s : TrackerState) (b : BBox) (hb : s.last_bbox = some b)
    (hF : ∀ f ∈ F, detectFirst f = none) :
    (runFrames s F).positions =
      s.positions ++
        List.replicate
          (min F.length (s.max_no_movement_frames + 1 - s.no_movement_frames))
          (bboxCentroid b) := by
  induction F generalizing s with
  | nil => simp [runFrames]
  | cons f F ih =>
      have hf : detectFirst f = none := hF f (by simp)
      have hF' : ∀ g ∈ F, detectFirst g = none := fun g hg => hF g (by simp [hg])
      have hfold : runFrames s (f :: F) = runFrames (process_frame s f) F := by
        simp [runFrames]
      by_cases hle : s.no_movement_frames ≤ s.max_no_movement_frames
      · have hb' : (process_frame s f).last_bbox = some b := by
          simp [process_frame, hf, hb, hle]
        have hpos : (process_frame s f).positions
            = s.positions ++ [bboxCentroid b] := by
          simp [process_frame, hf, hb, hle]
        have hno : (process_frame s f).no_movement_frames
            = s.no_movement_frames + 1 := by
          simp [process_frame, hf, hb, hle]
        have hmax : (process_frame s f).max_no_movement_frames
            = s.max_no_movement_frames := by
          simp [process_frame, hf, hb, hle]
        rw [hfold, ih (process_frame s f) hb' hF', hpos, hno, hmax]
        rw [List.append_assoc, List.singleton_append, ← List.replicate_succ]
        have harith :
            min F.length
              (s.max_no_movement_frames + 1 - (s.no_movement_frames + 1)) + 1
            = min (f :: F).length
                (s.max_no_movement_frames + 1 - s.no_movement_frames) := by
          simp only [List.length_cons]
          omega
        rw [harith]
      · have hstep : process_frame s f = s := by
          simp [process_frame, hf, hb, hle]
        rw [hfold, hstep, ih s hb hF']
        have harith :
            min F.length
              (s.max_no_movement_frames + 1 - s.no_movement_frames)
            = min (f :: F).length
                (s.max_no_movement_frames + 1 - s.no_movement_frames) := by
          simp only [List.length_cons]
          omega
        rw [harith]

/-- C1 (counterexample): the claim caps the synthetic trail points of one
uninterrupted occlusion run at `maxNoMovementStreak` (default 10), but on
one detection followed by 12 non-detection frames the tracker logs 12
trail points in total — 11 synthetic ones, exceeding the claimed bound,
because line 69 of `tracker.py` compares with `<=`. -/
theorem c1_counterexample :
    (runFrames initState c1Frames).positions.length = 12 ∧
    ¬ ((runFrames initState c1Frames).positions.length - 1
        ≤ initState.max_no_movement_frames) := by decide

/-- C1 (amended): during one uninterrupted occlusion run the tracker
emits exactly `min K (maxNoMovementStreak + 1)` synthetic trail points
for `K` consecutive non-detection frames; in particular their number
never exceeds `maxNoMovementStreak + 1`, one more than the claim
states. -/
theorem c1_occlusion_budget_amended (s : TrackerState) (b : BBox)
    (F : List (List Contour)) (hb : s.last_bbox = some b)
    (h0 : s.no_movement_frames = 0)
    (hF : ∀ f ∈ F, detectFirst f = none) :
    (runFrames s F).positions.length
      = s.positions.length + min F.length (s.max_no_movement_frames + 1) ∧
    (runFrames s F).positions.length
      ≤ s.positions.length + (s.max_no_movement_frames + 1) := by
  have h := runFrames_no_detect_positions F s b hb hF
  rw [h, h0]
  constructor
  · simp
  · simp only [List.length_append, List.length_replicate]
    omega

/-- Witness for the amended C1: from a fresh detection, 15 occluded
frames yield exactly `min 15 11 = 11` synthetic trail points. -/
theorem c1_amended_witness :
    (runFrames c1wState (List.replicate 15 [])).positions.length
      = c1wState.positions.length
        + min (List.replicate 15 ([] : List Contour)).length
              (c1wState.max_no_movement_frames + 1) :=
  (c1_occlusion_budget_amended c1wState ⟨1, 1, 2, 2⟩
    (List.replicate 15 []) rfl rfl (by decide)).1

/-- C3: a detection, then `K` non-detection frames with
`1 ≤ K ≤ maxNoMovementStreak`, yields exactly `K` synthetic trail points,
each at the centroid of the last detected bounding box, and the next
detection logs the new centroid and resets `noMovementStreak` to 0. -/
theorem c3_occlusion_tolerance (s0 : TrackerState) (cs1 cs2 : List Contour)
    (b1 b2 : BBox) (F : List (List Contour))
    (hdet1 : detectFirst cs1 = some b1) (hdet2 : detectFirst cs2 = some b2)
    (hF : ∀ f ∈ F, detectFirst f = none)
    (hK1 : 1 ≤ F.length) (hK : F.length ≤ s0.max_no_movement_frames) :
    (process_frame s0 cs1).positions = s0.positions ++ [bboxCentroid b1] ∧
    (runFrames (process_frame s0 cs1) F).positions
      = (process_frame s0 cs1).positions
          ++ List.replicate F.length (bboxCentroid b1) ∧
    (process_frame (runFrames (process_frame s0 cs1) F) cs2).positions
      = (runFrames (process_frame s0 cs1) F).positions ++ [bboxCentroid b2] ∧
    (process_frame (runFrames (process_frame s0 cs1) F) cs2).no_movement_frames
      = 0 := by
  have hs1 : process_frame s0 cs1 =
      { s0 with
        positions := s0.positions ++ [bboxCentroid b1]
        last_bbox := some b1
        no_movement_frames := 0 } := by
    simp [process_frame, hdet1]
  refine ⟨by rw [hs1], ?_, ?_, ?_⟩
  · have h := runFrames_no_detect_positions F (process_frame s0 cs1) b1
      (by rw [hs1]) hF
    rw [h]
    congr 2
    rw [hs1]
    simp only
    omega
  · simp [process_frame, hdet2]
  · simp [process_frame, hdet2]

/-- Witness for C3 at a concrete run: a detection, two occluded frames,
then a second detection. -/
theorem c3_witness :
    (runFrames (process_frame initState c3wDet1) c3wF).positions
      = (process_frame initState c3wDet1).positions
          ++ List.replicate c3wF.length (bboxCentroid ⟨4, 4, 10, 6⟩) ∧
    (process_frame (runFrames (process_frame initState c3wDet1) c3wF)
        c3wDet2).no_movement_frames = 0 := by
  have h := c3_occlusion_tolerance initState c3wDet1 c3wDet2
    ⟨4, 4, 10, 6⟩ ⟨8, 2, 4, 4⟩ c3wF (by decide) (by decide) (by decide)
    (by decide) (by decide)
  exact ⟨h.2.1, h.2.2.2⟩

/-- The point-collection loop of `calculate_total_distance` is the
spec-side two-stage pipeline generalized over the running index:
enumerate from `idx`, keep the indices divisible by `frame_skip`, then
drop invalid rows. -/
theorem pointsLoop_eq_filter (frame_skip : ℕ) (rows : List Row) :
    ∀ idx, pointsLoop frame_skip idx rows
      = (((rows.enumFrom idx).filter (fun p => p.1 % frame_skip == 0)).map
          Prod.snd).filterMap parseRow := by
  induction rows with
  | nil => intro idx; simp [pointsLoop]
  | cons r rs ih =>
      intro idx
      have hc : (r :: rs).enumFrom idx = (idx, r) :: rs.enumFrom (idx + 1) := rfl
      rw [pointsLoop, hc]
      by_cases h : idx % frame_skip = 0
      · cases hp : parseRow r <;>
          simp [h, hp, ih, List.filter_cons, List.filterMap_cons]
      · simp [h, ih, List.filter_cons]

/-- The `points` list of `calculate_total_distance` equals the spec-side
description: downsample to every `frame_skip`-th row, then drop rows with
missing or non-numeric centroid fields. -/
theorem collectPoints_eq_specSampled (frame_skip : ℕ) (rows : List Row) :
    collectPoints frame_skip rows
      = (specSampled frame_skip rows).filterMap parseRow := by
  rw [collectPoints, pointsLoop_eq_filter]
  rfl

/-- A run of enumerated rows none of whose indices is divisible by
`skip` contributes nothing to the downsample filter. -/
theorem filter_enumFrom_none (skip : ℕ) (l : List Row) :
    ∀ n, (∀ j, j < l.length → (n + j) % skip ≠ 0) →
      (l.enumFrom n).filter (fun p => p.1 % skip == 0) = [] := by
  induction l with
  | nil => intro n _; rfl
  | cons r rs ih =>
      intro n h
      have h0 : n % skip ≠ 0 := by simpa using h 0 (by simp)
      have hrec := ih (n + 1) (fun j hj => by
        have e : n + 1 + j = n + (j + 1) := by omega
        rw [e]
        exact h (j + 1) (by simpa using Nat.succ_lt_succ hj))
      have hc : (r :: rs).enumFrom n = (n, r) :: rs.enumFrom (n + 1) := rfl
      rw [hc, List.filter_cons]
      simp [h0, hrec]

/-- Downsampling a table of `2 × N + 1` rows by `N` keeps exactly the
rows at indices 0, `N` and `2 × N`. -/
theorem specSampled_three (N : ℕ) (l1 l2 : List Row) (a b c : Row)
    (hN : 1 ≤ N) (h1 : l1.length = N - 1) (h2 : l2.length = N - 1) :
    specSampled N (a :: (l1 ++ (b :: (l2 ++ [c])))) = [a, b, c] := by
  have hrun1 : ∀ j, j < l1.length → (1 + j) % N ≠ 0 := by
    intro j hj
    rw [h1] at hj
    rw [Nat.mod_eq_of_lt (by omega)]
    omega
  have hrun2 : ∀ j, j < l2.length → (N + 1 + j) % N ≠ 0 := by
    intro j hj
    rw [h2] at hj
    have e : N + 1 + j = N + (1 + j) := by omega
    rw [e, Nat.add_mod_left, Nat.mod_eq_of_lt (by omega)]
    omega
  have hcons0 : (a :: (l1 ++ (b :: (l2 ++ [c])))).enum
      = (0, a) :: (l1 ++ (b :: (l2 ++ [c]))).enumFrom 1 := rfl
  have hconsN : (b :: (l2 ++ [c])).enumFrom (1 + l1.length)
      = (1 + l1.length, b) :: (l2 ++ [c]).enumFrom (1 + l1.length + 1) := rfl
  rw [specSampled, hcons0, List.enumFrom_append, hconsN, List.enumFrom_append]
  rw [List.filter_cons, List.filter_append, List.filter_cons,
    List.filter_append]
  have hb : 1 + l1.length = N := by omega
  have hc2 : 1 + l1.length + 1 + l2.length = 2 * N := by omega
  rw [hb]
  have hsingle : ([c].enumFrom (N + 1 + l2.length)).filter
      (fun p => p.1 % N == 0) = [(N + 1 + l2.length, c)] := by
    have hmod : (N + 1 + l2.length) % N = 0 := by
      have e : N + 1 + l2.length = 2 * N := by omega
      rw [e]
      exact Nat.mul_mod_left 2 N
    simp [List.enumFrom, List.filter_cons, hmod]
  rw [filter_enumFrom_none N l1 1 hrun1,
    filter_enumFrom_none N l2 (N + 1) (by
      intro j hj
      exact hrun2 j hj),
    hsingle]
  simp [Nat.mod_self]

/-- C5: the distance computation keeps exactly the rows whose 0-based
index is a multiple of `frame_skip`, before validity filtering; in
particular a table of `2 × N + 1` rows downsampled with
`frame_skip = N` uses exactly the rows at indices 0, `N` and `2 × N`.
(`frame_skip = 0` is excluded: `idx % 0` raises in Python.) -/
theorem c5_downsampling (frame_skip N : ℕ) (rows l1 l2 : List Row)
    (a b c : Row) (hskip : 0 < frame_skip) (hN : 1 ≤ N)
    (h1 : l1.length = N - 1) (h2 : l2.length = N - 1) :
    collectPoints frame_skip rows
      = (specSampled frame_skip rows).filterMap parseRow ∧
    specSampled N (a :: (l1 ++ (b :: (l2 ++ [c])))) = [a, b, c] :=
  ⟨collectPoints_eq_specSampled frame_skip rows,
   specSampled_three N l1 l2 a b c hN h1 h2⟩

/-- Witness for C5: a 7-row table (`N = 3`) downsampled by 3 keeps rows
0, 3 and 6. -/
theorem c5_witness :
    collectPoints 3 (List.replicate 7 (⟨some 1, some 2⟩ : Row))
      = (specSampled 3 (List.replicate 7 (⟨some 1, some 2⟩ : Row))).filterMap
          parseRow ∧
    specSampled 3
        ((⟨some 0, some 0⟩ : Row)
          :: ([⟨some 1, some 1⟩, ⟨some 2, some 2⟩]
            ++ ((⟨some 3, some 3⟩ : Row)
              :: ([⟨some 4, some 4⟩, ⟨some 5, some 5⟩] ++ [⟨some 6, some 6⟩]))))
      = [⟨some 0, some 0⟩, ⟨some 3, some 3⟩, ⟨some 6, some 6⟩] :=
  c5_downsampling 3 3 (List.replicate 7 ⟨some 1, some 2⟩)
    [⟨some 1, some 1⟩, ⟨some 2, some 2⟩] [⟨some 4, some 4⟩, ⟨some 5, some 5⟩]
    ⟨some 0, some 0⟩ ⟨some 3, some 3⟩ ⟨some 6, some 6⟩
    (by decide) (by decide) (by decide) (by decide)

/-- The spec's "standard 2-D distance" (the Euclidean metric on
`EuclideanSpace ℝ (Fin 2)`) agrees with the square-root formula summed by
`calculate_total_distance`. -/
theorem euclidDist2D_eq_sqrt (p q : ℤ × ℤ) :
    euclidDist2D p q
      = Real.sqrt (((q.1 - p.1 : ℤ) : ℝ) ^ 2 + ((q.2 - p.2 : ℤ) : ℝ) ^ 2) := by
  simp only [euclidDist2D, toE2, EuclideanSpace.dist_eq, Fin.sum_univ_two,
    WithLp.equiv_symm_pi_apply, Matrix.cons_val_zero, Matrix.cons_val_one,
    Matrix.head_cons, Real.dist_eq, sq_abs]
  congr 1
  push_cast
  ring

/-- The pixel-distance sum of `calculate_total_distance` is the spec-side
sum of Euclidean distances between consecutive points. -/
theorem totalPixelDistance_eq_spec (pts : List (ℤ × ℤ)) :
    totalPixelDistance pts = specPathLength pts := by
  induction pts with
  | nil => simp [totalPixelDistance, specPathLength]
  | cons p rest ih =>
      cases rest with
      | nil => simp [totalPixelDistance, specPathLength]
      | cons q rest' =>
          have hz : specPathLength (p :: q :: rest')
              = euclidDist2D p q + specPathLength (q :: rest') := by
            simp [specPathLength]
          rw [totalPixelDistance, ih, hz, euclidDist2D_eq_sqrt]

/-- Fewer than two points have no consecutive pair, so the spec-side path
length vanishes. -/
theorem specPathLength_short (pts : List (ℤ × ℤ)) (h : pts.length < 2) :
    specPathLength pts = 0 := by
  match pts, h with
  | [], _ => simp [specPathLength]
  | [p], _ => simp [specPathLength]

/-- C6: for a readable trajectory table and an openable video, the
computed distance is exactly the spec-side value: the sum of Euclidean
2-D distances between consecutive kept points, multiplied by the average
of the per-axis scale factors `real_width_cm / frame_width` and
`real_height_cm / frame_height`. -/
theorem c6_distance_is_scaled_euclidean_sum
    (rows : List Row) (video : VideoMeta)
    (real_width_cm real_height_cm : ℝ) (frame_skip : ℕ)
    (hopen : video.openable = true) :
    calculate_total_distance true rows video real_width_cm real_height_cm
        frame_skip
      = some (specDistanceCm rows video real_width_cm real_height_cm
          frame_skip) := by
  rw [calculate_total_distance, specDistanceCm, hopen]
  simp only [Bool.true_eq_false, if_false]
  by_cases hlen : (collectPoints frame_skip rows).length < 2
  · rw [if_pos hlen, specPathLength_short _ hlen, zero_mul]
  · rw [if_neg hlen, totalPixelDistance_eq_spec]

/-- Witness for C6: two points forming a 3-4-5 triangle in a
28 px × 14 px video calibrated to 28 cm × 14 cm. -/
theorem c6_witness :
    calculate_total_distance true
        [⟨some 0, some 0⟩, ⟨some 3, some 4⟩] ⟨true, 28, 14⟩ 28 14 1
      = some (specDistanceCm [⟨some 0, some 0⟩, ⟨some 3, some 4⟩]
          ⟨true, 28, 14⟩ 28 14 1) :=
  c6_distance_is_scaled_euclidean_sum
    [⟨some 0, some 0⟩, ⟨some 3, some 4⟩] ⟨true, 28, 14⟩ 28 14 1 rfl

/-- C7: when downsampling and validity filtering leave fewer than two
usable points, the distance computation reports zero distance
(`some 0`), not a failure (`none`). -/
theorem c7_few_points_zero
    (rows : List Row) (video : VideoMeta)
    (real_width_cm real_height_cm : ℝ) (frame_skip : ℕ)
    (hopen : video.openable = true)
    (hfew : (collectPoints frame_skip rows).length < 2) :
    calculate_total_distance true rows video real_width_cm real_height_cm
        frame_skip = some 0 := by
  rw [calculate_total_distance, hopen]
  simp only [Bool.true_eq_false, if_false]
  rw [if_pos hfew]

/-- Witness for C7: a 1-row table yields distance 0, not an error. -/
theorem c7_witness :
    (collectPoints 60 [(⟨some 5, some 7⟩ : Row)]).length < 2 ∧
    calculate_total_distance true [(⟨some 5, some 7⟩ : Row)]
        ⟨true, 640, 480⟩ 28 14 60 = some 0 :=
  ⟨by decide,
   c7_few_points_zero [⟨some 5, some 7⟩] ⟨true, 640, 480⟩ 28 14 60 rfl
     (by decide)⟩

/-- C4: every per-frame step preserves the streak invariant.  The streak
(a natural number, hence never negative) is reset to 0 exactly on frames
with a genuine detection; otherwise it is incremented precisely when a
synthetic trail point is produced from `lastBoundingBox`, and is
unchanged — together with the trail — on frames with neither a detection
nor a synthesized point. -/
theorem c4_streak_invariant (s : TrackerState) (cs : List Contour) :
    0 ≤ (process_frame s cs).no_movement_frames ∧
    (((process_frame s cs).no_movement_frames = 0
        ∧ (detectFirst cs).isSome = true) ∨
     ((process_frame s cs).no_movement_frames = s.no_movement_frames + 1
        ∧ detectFirst cs = none
        ∧ ∃ b, s.last_bbox = some b
            ∧ (process_frame s cs).positions
                = s.positions ++ [bboxCentroid b]) ∨
     ((process_frame s cs).no_movement_frames = s.no_movement_frames
        ∧ detectFirst cs = none
        ∧ (process_frame s cs).positions = s.positions)) := by
  refine ⟨Nat.zero_le _, ?_⟩
  match hdet : detectFirst cs with
  | some b =>
      left
      simp [process_frame, hdet]
  | none =>
      match hbb : s.last_bbox with
      | some b =>
          by_cases hle : s.no_movement_frames ≤ s.max_no_movement_frames
          · right; left
            simp [process_frame, hdet, hbb, hle]
          · right; right
            simp [process_frame, hdet, hbb, hle]
      | none =>
          right; right
          simp [process_frame, hdet, hbb]


/-- C2 (code evaluated at the failing inputs): for a video that cannot be
opened, and likewise for one that opens but never yields a frame, the
pipeline raises nothing — `save_results` skips writing and returns
normally — and `process_video` reports success.  The claim (and the
spec's failure semantics) require a distinct failure to be signaled to
the caller; the code swallows it. -/
theorem c2_failure_swallowed :
    tracker_pipeline ⟨false, [], none⟩ = Except.ok SaveOutcome.skipped ∧
    tracker_pipeline ⟨true, [], none⟩ = Except.ok SaveOutcome.skipped ∧
    process_video ⟨false, [], none⟩ "bad.mp4" = "✅ Success: bad.mp4" ∧
    process_video ⟨true, [], none⟩ "empty.mp4" = "✅ Success: empty.mp4" := by
  refine ⟨rfl, rfl, ?_, ?_⟩ <;> decide

/-- Concatenating the batches produced by the orchestrator's slicing
recovers the job list: every job belongs to exactly one batch, in
order. -/
theorem batches_flatten (bs : ℕ) (l : List α) :
    (batches bs l).flatMap id = l := by
  have H : ∀ n (l : List α), l.length ≤ n → (batches bs l).flatMap id = l := by
    intro n
    induction n with
    | zero =>
        intro l hl
        have hnil : l = [] := by
          cases l with
          | nil => rfl
          | cons x xs => simp at hl
        rw [hnil]
        simp [batches]
    | succ n ih =>
        intro l hl
        cases l with
        | nil => simp [batches]
        | cons x xs =>
            rw [batches]
            simp only [List.flatMap_cons, id]
            rw [ih (xs.drop (bs - 1)) (by simp [List.length_drop] at hl ⊢; omega)]
            rw [List.cons_append, List.take_append_drop]
  exact H l.length l le_rfl

/-- Each batch contributes its member count plus a start and a finish
line to the run log. -/
theorem batchLog_length (b : List Job) : (batchLog b).length = b.length + 2 := by
  simp [batchLog]

/-- The run log contains one completion line per job plus two boundary
lines per batch: the batch run reaches completion for every job list. -/
theorem runTrackingLog_length (bs : ℕ) (l : List Job) :
    ((batches bs l).flatMap batchLog).length
      = l.length + 2 * (batches bs l).length := by
  have H : ∀ n (l : List Job), l.length ≤ n →
      ((batches bs l).flatMap batchLog).length
        = l.length + 2 * (batches bs l).length := by
    intro n
    induction n with
    | zero =>
        intro l hl
        have hnil : l = [] := by
          cases l with
          | nil => rfl
          | cons x xs => simp at hl
        rw [hnil]
        simp [batches]
    | succ n ih =>
        intro l hl
        cases l with
        | nil => simp [batches]
        | cons x xs =>
            rw [batches]
            simp only [List.flatMap_cons, List.length_append, List.length_cons]
            rw [ih (xs.drop (bs - 1)) (by simp [List.length_drop] at hl ⊢; omega)]
            have hlen := congrArg List.length (List.take_append_drop (bs - 1) xs)
            simp only [List.length_append] at hlen
            rw [batchLog_length]
            simp only [List.length_cons]
            omega
  exact H l.length l le_rfl

/-- C8: the per-video exception boundary of `process_video` converts any
exception raised while tracking or writing into a failure message tagged
with the video's name; each job's log line is a function of that job
alone, so no other job's outcome is affected; and the batch slicing
covers every job exactly once, the run log carrying one completion line
per job and two boundary lines per batch, however many jobs fail. -/
theorem c8_per_job_isolation (jobs : List Job) (j : Job) (e : String)
    (hj : j.input.io_fault = some e) :
    (batches BATCH_SIZE jobs).flatMap id = jobs ∧
    (runTrackingLog jobs).length
      = jobs.length + 2 * (batches BATCH_SIZE jobs).length ∧
    process_video j.input j.name
      = "❌ Failed: " ++ j.name ++ " with error: " ++ e ∧
    (∀ j2 : Job, jobCompletionLine j2
        = "✅ Completed " ++ j2.name ++ ": " ++ process_video j2.input j2.name) := by
  refine ⟨batches_flatten _ _, runTrackingLog_length _ _, ?_, ?_⟩
  · simp [process_video, tracker_pipeline, hj]
  · intro j2
    rfl

/-- Witness for C8 on a concrete two-job batch whose second job fails. -/
theorem c8_witness :
    ((⟨"b.mp4", ⟨true, [], some "boom"⟩⟩ : Job).input.io_fault = some "boom") ∧
    process_video (⟨true, [], some "boom"⟩ : VideoInput) "b.mp4"
      = "❌ Failed: " ++ "b.mp4" ++ " with error: " ++ "boom" ∧
    (batches BATCH_SIZE c8wJobs).flatMap id = c8wJobs := by
  have h := c8_per_job_isolation c8wJobs ⟨"b.mp4", ⟨true, [], some "boom"⟩⟩
    "boom" rfl
  exact ⟨rfl, h.2.2.1, h.1⟩

/-- C9: the summarizer pairs a trajectory CSV only with the file named
`<stem>.mp4` in the videos directory — every emitted summary row's stem
has its `.mp4` partner present — so a CSV whose `<stem>.mp4` is absent
(in particular one produced from a `.avi` or `.mov` input, both accepted
by the orchestrator's extension filter, when no same-stem `.mp4` exists)
is skipped as a missing-video entry and never appears in the summary. -/
theorem c9_summary_pairs_only_mp4 (videos_dir data_files : List String)
    (dist : String → Option String) (s : String)
    (hmiss : (s ++ ".mp4") ∉ videos_dir) :
    (∀ r ∈ summaryRows videos_dir data_files dist,
        (r.1 ++ ".mp4") ∈ videos_dir) ∧
    (∀ r ∈ summaryRows videos_dir data_files dist, r.1 ≠ s) ∧
    isVideoFile "clip.avi" = true ∧ isVideoFile "clip.mov" = true ∧
    fileStem "clip.avi" = "clip" ∧ fileStem "clip.csv" = "clip" := by
  have hA : ∀ r ∈ summaryRows videos_dir data_files dist,
      (r.1 ++ ".mp4") ∈ videos_dir := by
    intro r hr
    rw [summaryRows] at hr
    rcases List.mem_filterMap.mp hr with ⟨f, hf, hsome⟩
    dsimp only at hsome
    by_cases hmem : (fileStem f ++ ".mp4") ∈ videos_dir
    · rw [if_pos hmem] at hsome
      obtain rfl := Option.some.inj hsome
      exact hmem
    · rw [if_neg hmem] at hsome
      exact absurd hsome (by simp)
  refine ⟨hA, ?_, by decide, by decide, by decide, by decide⟩
  intro r hr heq
  exact hmiss (heq ▸ hA r hr)

/-- Witness for C9: `fish.csv` (from `fish.avi`) finds no `fish.mp4` in a
videos directory holding only `fish.avi`, so the summary has no rows. -/
theorem c9_witness :
    (("fish" ++ ".mp4" : String) ∉ (["fish.avi"] : List String)) ∧
    (∀ r ∈ summaryRows ["fish.avi"] ["fish.csv"] (fun _ => some "1.00"),
        r.1 ≠ "fish") := by
  have h := c9_summary_pairs_only_mp4 ["fish.avi"] ["fish.csv"]
    (fun _ => some "1.00") "fish" (by decide)
  exact ⟨by decide, h.2.1⟩

/-- C10: `process_video` is total — it returns a string for every input,
so `future.result()` never raises, the orchestrator's exception branch is
never taken, and every job (a failing one included) is logged through the
completion line, the failure text embedded in the returned message. -/
theorem c10_completion_line_total (v : VideoInput) (name : String) :
    jobLine name (futureResult v name)
      = "✅ Completed " ++ name ++ ": " ++ process_video v name ∧
    (∀ e, v.io_fault = some e →
      jobLine name (futureResult v name)
        = "✅ Completed " ++ name ++ ": "
            ++ ("❌ Failed: " ++ name ++ " with error: " ++ e)) := by
  constructor
  · rfl
  · intro e he
    simp [jobLine, futureResult, process_video, tracker_pipeline, he]

/-- Witness for C10: a job whose write layer raises "disk full" is still
logged through the completion line. -/
theorem c10_witness :
    ((⟨true, [], some "disk full"⟩ : VideoInput).io_fault = some "disk full") ∧
    jobLine "c.mp4" (futureResult ⟨true, [], some "disk full"⟩ "c.mp4")
      = "✅ Completed " ++ "c.mp4" ++ ": "
          ++ ("❌ Failed: " ++ "c.mp4" ++ " with error: " ++ "disk full") :=
  ⟨rfl,
   (c10_completion_line_total ⟨true, [], some "disk full"⟩ "c.mp4").2
     "disk full" rfl⟩
